import Mathlib

/-!
Verification development for the clickcapture screen-capture utility.

The definitions below are a shallow embedding of the coordination core of
the program: the `AppState` record (src/app_state.rs), the area-select and
capture mode transitions (src/area_select.rs, src/screen_capture.rs), the
low-level mouse and keyboard hook callbacks (src/mouse.rs,
src/hook/keyboard.rs), the auto-click worker loop (src/auto_click.rs) and
the UI control enabling logic (src/ui/update_input_control_states.rs).

Machine integers (`i32` coordinates, `u32` counters) are modelled as
`Int`/`Nat`; none of the modelled operations can overflow in the ranges the
program uses (counters are bounded by the 999 click ceiling and by file
counts).  Win32 side effects that do not touch the modelled state (overlay
painting, window z-order, logging) are dropped; user-visible message boxes
are modelled as an explicit list of `Notice` values returned by each
operation, and hook installation as two booleans.
-/

namespace ClickCapture

/-- Screen point (windows `POINT`, two `i32` fields). -/
structure Point where
  x : Int
  y : Int
deriving DecidableEq, Repr

/-- Screen rectangle (windows `RECT`, four `i32` fields). -/
structure Rect where
  left : Int
  top : Int
  right : Int
  bottom : Int
deriving DecidableEq, Repr

/-- State of the auto-click feature, from `struct AutoClicker` in
src/auto_click.rs.  `thread_handle = some ()` models a stored
`JoinHandle` for a spawned worker thread. -/
structure AutoClicker where
  enabled : Bool
  stop_flag : Bool
  interval_ms : Nat
  progress_count : Nat
  max_count : Nat
  thread_handle : Option Unit
deriving DecidableEq, Repr

/-- `AutoClicker::new` (src/auto_click.rs): defaults. -/
def AutoClicker.new : AutoClicker :=
  { enabled := false
    stop_flag := true
    interval_ms := 1000
    progress_count := 0
    max_count := 0
    thread_handle := none }

/-- `AutoClicker::is_enabled`. -/
def AutoClicker.is_enabled (c : AutoClicker) : Bool := c.enabled

/-- `AutoClicker::is_running`: whether a thread handle is stored. -/
def AutoClicker.is_running (c : AutoClicker) : Bool := c.thread_handle.isSome

/-- `AutoClicker::get_max_count`. -/
def AutoClicker.get_max_count (c : AutoClicker) : Nat := c.max_count

/-- `AutoClicker::start` (src/auto_click.rs lines 125-154): fails if a
thread handle is already stored; otherwise clears the stop flag, resets
progress to zero and spawns the worker (modelled by storing a handle).
The click position only parameterizes the spawned thread. -/
def AutoClicker.start (c : AutoClicker) (_position : Point) : Except String AutoClicker :=
  if c.thread_handle.isSome then
    Except.error "連続クリックは既に開始されています"
  else
    Except.ok { c with stop_flag := false, progress_count := 0, thread_handle := some () }

/-- `AutoClicker::stop` (src/auto_click.rs lines 157-170): a no-op when the
stop flag is already set; otherwise sets the flag and joins (takes) the
thread handle. -/
def AutoClicker.stop (c : AutoClicker) : AutoClicker :=
  if c.stop_flag then c
  else { c with stop_flag := true, thread_handle := none }

/-- The slice of `struct AppState` (src/app_state.rs) that the verified
claims are about.  `mouse_hook`/`keyboard_hook` are `true` when the
corresponding low-level hook is installed. -/
structure AppState where
  is_area_select_mode : Bool
  is_capture_mode : Bool
  is_dragging : Bool
  drag_start : Point
  drag_end : Point
  current_mouse_pos : Point
  selected_area : Option Rect
  capture_file_counter : Nat
  mouse_hook : Bool
  keyboard_hook : Bool
  capture_overlay_is_processing : Bool
  capture_scale_factor : Nat
  jpeg_quality : Nat
  pdf_max_size_mb : Nat
  is_exporting_to_pdf : Bool
  auto_clicker : AutoClicker
deriving DecidableEq, Repr

/-- `AppState::default` (src/app_state.rs lines 432-469): all flags false,
counter starts at 1, default quality settings, fresh `AutoClicker`. -/
def AppState.default : AppState :=
  { is_area_select_mode := false
    is_capture_mode := false
    is_dragging := false
    drag_start := ⟨0, 0⟩
    drag_end := ⟨0, 0⟩
    current_mouse_pos := ⟨0, 0⟩
    selected_area := none
    capture_file_counter := 1
    mouse_hook := false
    keyboard_hook := false
    capture_overlay_is_processing := false
    capture_scale_factor := 65
    jpeg_quality := 95
    pdf_max_size_mb := 500
    is_exporting_to_pdf := false
    auto_clicker := AutoClicker.new }

/-- User-visible blocking message boxes relevant to the claims. -/
inductive Notice where
  | alreadyAreaSelectMode
  | noAreaSelected
  | autoClickCountZero
deriving DecidableEq, Repr

/-- `install_hooks` (src/hook.rs): installs the keyboard and mouse hooks. -/
def install_hooks (s : AppState) : AppState :=
  { s with keyboard_hook := true, mouse_hook := true }

/-- `uninstall_hooks` (src/hook.rs): removes both hooks. -/
def uninstall_hooks (s : AppState) : AppState :=
  { s with keyboard_hook := false, mouse_hook := false }

/-- `start_area_select_mode` (src/area_select.rs lines 106-145).
`cursor_ok` is whether `GetCursorPos` succeeded: only in that case is the
mode flag set and are the hooks installed. -/
def start_area_select_mode (cursor_ok : Bool) (cursor_pos : Point) (s : AppState) :
    AppState × List Notice :=
  if s.is_area_select_mode then
    (s, [Notice.alreadyAreaSelectMode])
  else if cursor_ok then
    (install_hooks
      { s with is_area_select_mode := true, current_mouse_pos := cursor_pos }, [])
  else
    (s, [])

/-- `cancel_area_select_mode` (src/area_select.rs lines 257-282): clears the
area-select and dragging flags, hides the overlay and uninstalls the hooks.
`selected_area` is not touched. -/
def cancel_area_select_mode (s : AppState) : AppState :=
  uninstall_hooks { s with is_area_select_mode := false, is_dragging := false }

/-- The rectangle computed in `end_area_select_mode`
(src/area_select.rs lines 191-204): componentwise min/max of the drag start
and drag end points. -/
def normalized_selection (p q : Point) : Rect :=
  { left := min p.x q.x
    top := min p.y q.y
    right := max p.x q.x
    bottom := max p.y q.y }

/-- `end_area_select_mode` (src/area_select.rs lines 186-217): stores the
normalized rectangle in `selected_area` and delegates to
`cancel_area_select_mode`. -/
def end_area_select_mode (s : AppState) : AppState :=
  cancel_area_select_mode
    { s with selected_area := some (normalized_selection s.drag_start s.drag_end) }

/-- `toggle_capture_mode` (src/screen_capture.rs lines 111-193).  When in
capture mode: exits it, uninstalls the hooks and stops the auto-clicker if
running.  Otherwise checks the preconditions (a selection rectangle exists;
the auto-click target is nonzero when the feature is enabled), refusing
with a notice on violation, and on success sets the flag and installs the
hooks. -/
def toggle_capture_mode (s : AppState) : AppState × List Notice :=
  if s.is_capture_mode then
    let s1 := uninstall_hooks { s with is_capture_mode := false }
    let s2 :=
      if s1.auto_clicker.is_running then { s1 with auto_clicker := s1.auto_clicker.stop }
      else s1
    (s2, [])
  else if s.selected_area.isNone then
    (s, [Notice.noAreaSelected])
  else if s.auto_clicker.is_enabled && s.auto_clicker.get_max_count == 0 then
    (s, [Notice.autoClickCountZero])
  else
    (install_hooks { s with is_capture_mode := true }, [])

/-- Outcome of one call to `capture_screen_area_with_counter`
(src/screen_capture.rs lines 242-463), abstracting the fallible GDI and
file-IO steps: `GetDIBits` may fail, the JPEG save may fail, or everything
succeeds. -/
inductive CaptureOutcome where
  | getDIBitsFail
  | saveFail
  | saveOk
deriving DecidableEq, Repr

/-- The decimal digit string produced by `format!` with a 4-digit
zero-padded field for the counter (src/screen_capture.rs line 420), as a
big-endian digit list: the decimal digits of `n` left-padded with zeros to
length 4. -/
def file_digits (n : Nat) : List Nat :=
  let ds := Nat.digits 10 n
  List.replicate (4 - ds.length) 0 ++ ds.reverse

/-- `capture_screen_area_with_counter` (src/screen_capture.rs lines
242-463) restricted to the modelled state: fails without touching the
counter when no selection exists or when `GetDIBits` or the JPEG save
fails; on a verified-successful save returns the filename digits formed
from the counter value at save time and increments the counter.  All paths
past the area check leave the processing flag `false` after completion. -/
def capture_screen_area_with_counter (outcome : CaptureOutcome) (s : AppState) :
    AppState × Option (List Nat) :=
  match s.selected_area with
  | none => (s, none)
  | some _ =>
    match outcome with
    | CaptureOutcome.getDIBitsFail => ({ s with capture_overlay_is_processing := false }, none)
    | CaptureOutcome.saveFail => ({ s with capture_overlay_is_processing := false }, none)
    | CaptureOutcome.saveOk =>
      ({ s with
          capture_file_counter := s.capture_file_counter + 1
          capture_overlay_is_processing := false },
        some (file_digits s.capture_file_counter))

/-- Runs a sequence of capture attempts, collecting the filenames of the
successful saves in order. -/
def run_captures : AppState → List CaptureOutcome → AppState × List (List Nat)
  | s, [] => (s, [])
  | s, o :: os =>
    match capture_screen_area_with_counter o s with
    | (s1, r) =>
      match run_captures s1 os with
      | (s2, names) => (s2, r.toList ++ names)

/-- The three mouse events dispatched by `low_level_mouse_proc`
(src/mouse.rs): `WM_MOUSEMOVE`, `WM_LBUTTONDOWN`, `WM_LBUTTONUP`. -/
inductive MouseEvent where
  | mousemove
  | lbuttondown
  | lbuttonup
deriving DecidableEq, Repr

/-- Observable actions taken by the mouse hook on a primary button-up in
capture mode: starting the auto-click worker, or performing one
synchronous capture. -/
inductive MouseAction where
  | startAutoClick
  | syncCapture
deriving DecidableEq, Repr

/-- The fall-through check at the end of `low_level_mouse_proc`
(src/mouse.rs lines 243-250): while area-select mode is active, primary
button-down and button-up events are consumed.  It reads the state as
mutated by the event processing above it. -/
def area_select_click_guard (s : AppState) (ev : MouseEvent) : Bool :=
  s.is_area_select_mode &&
    (ev == MouseEvent.lbuttondown || ev == MouseEvent.lbuttonup)

/-- `low_level_mouse_proc` (src/mouse.rs lines 134-256).  Returns the new
state, whether the event was swallowed (`LRESULT(1)` returned instead of
`CallNextHookEx`) and the capture-mode actions performed.  `outcome`
abstracts the result of a synchronous capture, which does not affect
swallowing. -/
def low_level_mouse_proc (s : AppState) (ev : MouseEvent) (pos : Point)
    (outcome : CaptureOutcome) : AppState × Bool × List MouseAction :=
  let s0 := { s with current_mouse_pos := pos }
  match ev with
  | MouseEvent.mousemove =>
    let s1 :=
      if s0.is_area_select_mode && s0.is_dragging then { s0 with drag_end := pos } else s0
    (s1, area_select_click_guard s1 ev, [])
  | MouseEvent.lbuttondown =>
    if s0.is_area_select_mode then
      ({ s0 with drag_start := pos, drag_end := pos, is_dragging := true }, true, [])
    else
      (s0, area_select_click_guard s0 ev, [])
  | MouseEvent.lbuttonup =>
    if s0.is_area_select_mode && s0.is_dragging then
      let s1 := end_area_select_mode s0
      (s1, area_select_click_guard s1 ev, [])
    else if s0.is_capture_mode then
      if s0.auto_clicker.is_enabled && !s0.auto_clicker.is_running then
        let c :=
          match s0.auto_clicker.start pos with
          | Except.ok c => c
          | Except.error _ => s0.auto_clicker
        ({ s0 with auto_clicker := c }, true, [MouseAction.startAutoClick])
      else
        let s1 := (capture_screen_area_with_counter outcome s0).1
        (s1, area_select_click_guard s1 ev, [MouseAction.syncCapture])
    else
      (s0, area_select_click_guard s0 ev, [])

/-- `low_level_keyboard_proc` (src/hook/keyboard.rs lines 218-278) for a
key event with virtual-key code `vk_code`.  On escape key-down it exits
capture mode (via `toggle_capture_mode`) and cancels area-select mode,
checking the flags in that order on the possibly already mutated state;
the boolean result is whether the event was swallowed. -/
def low_level_keyboard_proc (s : AppState) (vk_code : Nat) (key_down : Bool) :
    AppState × Bool :=
  if key_down then
    let r1 :=
      if vk_code == 27 && s.is_capture_mode then ((toggle_capture_mode s).1, true)
      else (s, false)
    let r2 :=
      if vk_code == 27 && r1.1.is_area_select_mode then (cancel_area_select_mode r1.1, true)
      else (r1.1, false)
    (r2.1, r1.2 || r2.2)
  else
    (s, false)

/-- The `WM_AUTO_CLICK_COMPLETE` branch of the dialog procedure
(src/ui/dialog_handler.rs lines 233-242): exits capture mode if it is
still active. -/
def handle_auto_click_complete (s : AppState) : AppState :=
  if s.is_capture_mode then (toggle_capture_mode s).1 else s

/-- `cleanup_and_exit_dialog` / `shutdown_application`
(src/main.rs lines 588-605, src/ui/dialog_handler.rs lines 301-317):
on close, exits whichever mode is active before ending the dialog. -/
def cleanup_and_exit_dialog (s : AppState) : AppState :=
  if s.is_capture_mode then (toggle_capture_mode s).1
  else if s.is_area_select_mode then cancel_area_select_mode s
  else s

/-- The flag mutation at the start of `handle_pdf_export_button`
(src/ui/pdf_export_button_handler.rs line 50). -/
def handle_pdf_export_start (s : AppState) : AppState :=
  { s with is_exporting_to_pdf := true }

/-- The flag mutation after PDF export completes
(src/ui/pdf_export_button_handler.rs line 53). -/
def handle_pdf_export_finish (s : AppState) : AppState :=
  { s with is_exporting_to_pdf := false }

/-- Enable/disable state of the dialog controls, one field per control
group, as computed by `update_input_control_states`. -/
structure ControlStates where
  area_select_enable : Bool
  capture_enable : Bool
  browse_enable : Bool
  export_pdf_enable : Bool
  close_enable : Bool
  auto_click_enable : Bool
  property_combobox_enable : Bool
deriving DecidableEq, Repr

/-- `update_input_control_states`
(src/ui/update_input_control_states.rs lines 57-87): the mode decides
which controls are enabled.  A disabled button cannot emit its
`BN_CLICKED` command. -/
def update_input_control_states (s : AppState) : ControlStates :=
  if s.is_area_select_mode then
    ⟨true, false, false, false, true, false, false⟩
  else if s.is_capture_mode then
    ⟨false, true, false, false, true, false, false⟩
  else if s.is_exporting_to_pdf then
    ⟨false, false, false, false, false, false, false⟩
  else
    ⟨true, true, true, true, true, true, true⟩

/-- One event processed on the UI/hook dispatch thread: a UI command
(button click reaching the dialog procedure), a hook callback invocation,
or the asynchronous completion message posted by the worker. -/
inductive Cmd where
  | reqAreaSelect (cursor_ok : Bool) (pos : Point)
  | reqCapture
  | reqPdfExportStart
  | reqPdfExportFinish
  | reqClose
  | mouse (ev : MouseEvent) (pos : Point) (outcome : CaptureOutcome)
  | key (vk_code : Nat) (key_down : Bool)
  | autoClickComplete
deriving DecidableEq, Repr

/-- Whether an event can be delivered in state `s`: button commands
require the button to be enabled per `update_input_control_states`
(a disabled Win32 button sends no `BN_CLICKED`); PDF export finishes only
while exporting; hook callbacks and the posted completion message are
allowed at any time (a conservative over-approximation: the hooks are in
fact installed only in area-select and capture mode). -/
def cmd_enabled (s : AppState) : Cmd → Bool
  | Cmd.reqAreaSelect _ _ => (update_input_control_states s).area_select_enable
  | Cmd.reqCapture => (update_input_control_states s).capture_enable
  | Cmd.reqPdfExportStart => (update_input_control_states s).export_pdf_enable
  | Cmd.reqPdfExportFinish => s.is_exporting_to_pdf
  | Cmd.reqClose => (update_input_control_states s).close_enable
  | Cmd.mouse _ _ _ => true
  | Cmd.key _ _ => true
  | Cmd.autoClickComplete => true

/-- Effect of one event on the application state, dispatching to the
handler the dialog procedure (src/ui/dialog_handler.rs lines 122-242) or
the hook callbacks invoke. -/
def apply_cmd (s : AppState) : Cmd → AppState
  | Cmd.reqAreaSelect ok pos => (start_area_select_mode ok pos s).1
  | Cmd.reqCapture => (toggle_capture_mode s).1
  | Cmd.reqPdfExportStart => handle_pdf_export_start s
  | Cmd.reqPdfExportFinish => handle_pdf_export_finish s
  | Cmd.reqClose => cleanup_and_exit_dialog s
  | Cmd.mouse ev pos outcome => (low_level_mouse_proc s ev pos outcome).1
  | Cmd.key vk down => (low_level_keyboard_proc s vk down).1
  | Cmd.autoClickComplete => handle_auto_click_complete s

/-- States reachable from the freshly initialized application state by
deliverable events. -/
inductive Reachable : AppState → Prop where
  | init : Reachable AppState.default
  | step {s : AppState} (c : Cmd) : Reachable s → cmd_enabled s c = true →
      Reachable (apply_cmd s c)

/-- `MAX_CAPTURE_COUNT` (src/auto_click.rs line 60): hard click ceiling. -/
def MAX_CAPTURE_COUNT : Nat := 999

/-- The `while` loop of `auto_click_loop` (src/auto_click.rs lines
200-257), by iteration.  `progress` is the local progress counter, which
equals the number of click attempts so far, so the stop-flag reads and the
click result of an iteration are indexed by it: `stop_at_guard p` is the
flag value read by the loop guard, `stop_in_sleep p` the value read by the
post-sleep check, and `click_err p` whether the `SendInput` click attempt
fails.  `fuel` bounds the recursion; the loop provably exits before the
fuel used by `auto_click_loop` runs out.  Returns the final click count
and whether the ceiling warning box was shown. -/
def auto_click_loop_iter (stop_at_guard stop_in_sleep click_err : Nat → Bool)
    (max_count : Nat) : Nat → Nat → Nat × Bool
  | 0, progress => (progress, false)
  | fuel + 1, progress =>
    if stop_at_guard progress then (progress, false)
    else if stop_in_sleep progress then (progress, false)
    else if MAX_CAPTURE_COUNT ≤ progress || max_count ≤ progress then
      (progress, decide (MAX_CAPTURE_COUNT ≤ progress))
    else if click_err progress then (progress + 1, false)
    else
      auto_click_loop_iter stop_at_guard stop_in_sleep click_err max_count fuel (progress + 1)

/-- Result of one run of the auto-click worker: number of `SendInput`
click attempts, whether the ceiling warning was shown, and how many
`WM_AUTO_CLICK_COMPLETE` messages were posted. -/
structure WorkerResult where
  clicks : Nat
  ceiling_warned : Bool
  completion_posts : Nat
deriving DecidableEq, Repr

/-- `auto_click_loop` (src/auto_click.rs lines 188-270): runs the loop
from progress 0 (the value `start` stored) and afterwards posts exactly
one `WM_AUTO_CLICK_COMPLETE` message to the dialog (whose handle is
always set after initialization). -/
def auto_click_loop (stop_at_guard stop_in_sleep click_err : Nat → Bool)
    (max_count : Nat) : WorkerResult :=
  let r := auto_click_loop_iter stop_at_guard stop_in_sleep click_err max_count
    (MAX_CAPTURE_COUNT + 1) 0
  { clicks := r.1, ceiling_warned := r.2, completion_posts := 1 }

/-- The only writes `auto_click_loop` performs on the shared application
state: storing the progress counter (src/auto_click.rs line 256).  In
particular the worker never touches `thread_handle`. -/
def worker_store_progress (s : AppState) (n : Nat) : AppState :=
  { s with auto_clicker := { s.auto_clicker with progress_count := n } }

/-- The documented mode invariant: the three mode flags are pairwise
exclusive and dragging happens only in area-select mode. -/
def mode_flags_ok (s : AppState) : Bool :=
  (!(s.is_area_select_mode && s.is_capture_mode)) &&
  (!(s.is_area_select_mode && s.is_exporting_to_pdf)) &&
  (!(s.is_capture_mode && s.is_exporting_to_pdf)) &&
  (!s.is_dragging || s.is_area_select_mode)

/-! Helper lemmas about the individual operations. -/

theorem capture_preserves_flags (outcome : CaptureOutcome) (s : AppState) :
    ((capture_screen_area_with_counter outcome s).1).is_area_select_mode = s.is_area_select_mode
  ∧ ((capture_screen_area_with_counter outcome s).1).is_capture_mode = s.is_capture_mode
  ∧ ((capture_screen_area_with_counter outcome s).1).is_dragging = s.is_dragging
  ∧ ((capture_screen_area_with_counter outcome s).1).is_exporting_to_pdf = s.is_exporting_to_pdf
  ∧ ((capture_screen_area_with_counter outcome s).1).selected_area = s.selected_area := by
  cases h : s.selected_area <;> cases outcome <;>
    simp [capture_screen_area_with_counter, h]

theorem toggle_preserves_selected_area (s : AppState) :
    ((toggle_capture_mode s).1).selected_area = s.selected_area := by
  unfold toggle_capture_mode
  split_ifs <;> simp [uninstall_hooks, install_hooks, AutoClicker.stop]
  split_ifs <;> rfl

theorem cancel_preserves_selected_area (s : AppState) :
    (cancel_area_select_mode s).selected_area = s.selected_area := rfl

/-- C4: the rectangle stored on drag completion has left/top the
componentwise minimum and right/bottom the componentwise maximum of the
drag anchor and release point, and swapping the two points stores the
identical rectangle. -/
theorem drag_normalization (s : AppState) :
    (end_area_select_mode s).selected_area =
      some { left := min s.drag_start.x s.drag_end.x
             top := min s.drag_start.y s.drag_end.y
             right := max s.drag_start.x s.drag_end.x
             bottom := max s.drag_start.y s.drag_end.y }
  ∧ (end_area_select_mode
        { s with drag_start := s.drag_end, drag_end := s.drag_start }).selected_area
      = (end_area_select_mode s).selected_area := by
  constructor
  · rfl
  · simp [end_area_select_mode, cancel_area_select_mode, uninstall_hooks,
      normalized_selection, min_comm, max_comm]

/-- C9: once stored, the selection rectangle is untouched by cancelling
area-select mode, by entering or leaving capture mode, by every capture
attempt (successful or failed) and by the keyboard hook, so it persists
across capture sessions until a completed drag overwrites it. -/
theorem selected_area_persistence (s : AppState) (outcome : CaptureOutcome)
    (vk_code : Nat) (key_down : Bool) :
    (cancel_area_select_mode s).selected_area = s.selected_area
  ∧ ((toggle_capture_mode s).1).selected_area = s.selected_area
  ∧ ((capture_screen_area_with_counter outcome s).1).selected_area = s.selected_area
  ∧ ((low_level_keyboard_proc s vk_code key_down).1).selected_area = s.selected_area := by
  refine ⟨rfl, toggle_preserves_selected_area s, (capture_preserves_flags outcome s).2.2.2.2, ?_⟩
  unfold low_level_keyboard_proc
  split_ifs <;> simp [cancel_preserves_selected_area, toggle_preserves_selected_area] <;>
    split_ifs <;> simp [cancel_preserves_selected_area, toggle_preserves_selected_area]

/-- C5: requesting capture mode with no stored selection rectangle, or
with auto-click enabled and a zero target count, is refused: the state is
unchanged (so the mode stays idle and no hook is installed) and exactly
one precondition notice is shown. -/
theorem capture_precondition_refused (s : AppState)
    (hcap : s.is_capture_mode = false)
    (h : s.selected_area = none ∨
          (s.auto_clicker.enabled = true ∧ s.auto_clicker.max_count = 0)) :
    (toggle_capture_mode s).1 = s
  ∧ ((toggle_capture_mode s).2 = [Notice.noAreaSelected] ∨
      (toggle_capture_mode s).2 = [Notice.autoClickCountZero])
  ∧ (toggle_capture_mode s).1.is_capture_mode = false
  ∧ (toggle_capture_mode s).1.mouse_hook = s.mouse_hook
  ∧ (toggle_capture_mode s).1.keyboard_hook = s.keyboard_hook := by
  have hmain : (toggle_capture_mode s).1 = s
      ∧ ((toggle_capture_mode s).2 = [Notice.noAreaSelected] ∨
          (toggle_capture_mode s).2 = [Notice.autoClickCountZero]) := by
    unfold toggle_capture_mode
    rcases h with h | ⟨h1, h2⟩
    · simp [hcap, h]
    · by_cases hn : s.selected_area.isNone
      · simp [hcap, hn]
      · simp [hcap, hn, AutoClicker.is_enabled, AutoClicker.get_max_count, h1, h2]
  refine ⟨hmain.1, hmain.2, ?_, ?_, ?_⟩ <;> rw [hmain.1]
  exact hcap

/-- C5 witness at the freshly initialized state. -/
theorem capture_precondition_refused_witness :
    (toggle_capture_mode AppState.default).1 = AppState.default
  ∧ (toggle_capture_mode AppState.default).2 = [Notice.noAreaSelected] := by
  have h := capture_precondition_refused AppState.default rfl (Or.inl rfl)
  refine ⟨h.1, ?_⟩
  rcases h.2.1 with h2 | h2
  · exact h2
  · exact absurd h2 (by decide)

/-- C6 counterexample: issuing RequestCapture while already in capture
mode does change the mode state (it exits capture mode, toggle semantics)
and shows no notice, refuting the claim that re-entering a non-idle mode
never changes state and always surfaces an already-in-mode notice. -/
theorem mode_reentrancy_counterexample :
    (toggle_capture_mode
        (install_hooks { AppState.default with is_capture_mode := true })).1.is_capture_mode
        = false
  ∧ (toggle_capture_mode
        (install_hooks { AppState.default with is_capture_mode := true })).2 = [] := by
  decide

/-- C6 amended: issuing RequestAreaSelect while already in area-select
mode leaves the state unchanged and surfaces the already-in-mode notice;
issuing RequestCapture while already in capture mode instead exits capture
mode without any notice. -/
theorem mode_reentrancy_amended (s : AppState) (cursor_ok : Bool) (pos : Point) :
    (s.is_area_select_mode = true →
      start_area_select_mode cursor_ok pos s = (s, [Notice.alreadyAreaSelectMode]))
  ∧ (s.is_capture_mode = true →
      (toggle_capture_mode s).1.is_capture_mode = false ∧ (toggle_capture_mode s).2 = []) := by
  constructor
  · intro h
    simp [start_area_select_mode, h]
  · intro h
    unfold toggle_capture_mode
    simp only [h, if_true]
    constructor
    · split_ifs <;> simp [uninstall_hooks, AutoClicker.stop]
    · trivial

/-- C6 amended witness: both parts applied at concrete states. -/
theorem mode_reentrancy_amended_witness :
    start_area_select_mode true ⟨0, 0⟩ { AppState.default with is_area_select_mode := true }
      = ({ AppState.default with is_area_select_mode := true }, [Notice.alreadyAreaSelectMode])
  ∧ (toggle_capture_mode { AppState.default with is_capture_mode := true }).2 = [] :=
  ⟨(mode_reentrancy_amended { AppState.default with is_area_select_mode := true }
      true ⟨0, 0⟩).1 rfl,
   ((mode_reentrancy_amended { AppState.default with is_capture_mode := true }
      true ⟨0, 0⟩).2 rfl).2⟩

/-- C7 counterexample: a primary button-up arriving in area-select mode
while no drag is in progress is swallowed, refuting the claim that
suppression happens only while `is_dragging` is true. -/
theorem mouse_swallow_counterexample :
    ((low_level_mouse_proc (install_hooks { AppState.default with is_area_select_mode := true })
        MouseEvent.lbuttonup ⟨5, 5⟩ CaptureOutcome.saveOk).2.1 = true)
  ∧ (install_hooks { AppState.default with is_area_select_mode := true }).is_dragging
      = false := by
  decide

/-- C7 amended: exact characterization of event suppression.  Pointer
moves are always forwarded; a primary button-down is swallowed exactly
when area-select mode is active (including before any drag starts); a
primary button-up is swallowed exactly when area-select mode is active
with no drag in progress (the drag-completing release is forwarded, the
mode having been exited first), or when in capture mode the click starts
the auto-click worker (auto-click enabled and not yet running); every
other capture-mode click is forwarded to the application underneath. -/
theorem mouse_swallow_characterization (s : AppState) (ev : MouseEvent) (pos : Point)
    (outcome : CaptureOutcome) :
    (low_level_mouse_proc s ev pos outcome).2.1 =
      (match ev with
        | MouseEvent.mousemove => false
        | MouseEvent.lbuttondown => s.is_area_select_mode
        | MouseEvent.lbuttonup =>
          (!(s.is_area_select_mode && s.is_dragging)) &&
            (s.is_area_select_mode ||
              (s.is_capture_mode && s.auto_clicker.enabled &&
                !s.auto_clicker.is_running))) := by
  cases ev
  · simp [low_level_mouse_proc, area_select_click_guard]
  · simp only [low_level_mouse_proc]
    split_ifs with h1 <;> simp [area_select_click_guard, h1]
  · simp only [low_level_mouse_proc]
    split_ifs with h1 h2 h3
    · simp [area_select_click_guard, end_area_select_mode, cancel_area_select_mode,
        uninstall_hooks, h1]
    · simp only [area_select_click_guard] at *
      simp only [AutoClicker.is_enabled] at h3
      cases harea : s.is_area_select_mode <;> cases hdrag : s.is_dragging <;> simp_all
    · have hA := (capture_preserves_flags outcome { s with current_mouse_pos := pos }).1
      simp only [area_select_click_guard, hA]
      simp only [AutoClicker.is_enabled] at h3
      simp only at h1 h2
      cases harea : s.is_area_select_mode <;> cases hdrag : s.is_dragging <;>
        simp_all
    · simp only [area_select_click_guard]
      simp_all

/-- C10: `is_running` is exactly handle presence; the worker's only
shared-state write (storing progress) keeps the handle; so after the loop
exits on its own and before `stop` runs, `is_running` is still true,
`start` still errors, and a primary click in capture mode in that window
performs a single synchronous capture (and is forwarded), instead of
starting a new auto-click session. -/
theorem stale_worker_handle (c : AutoClicker) (s : AppState)
    (pos pos2 : Point) (outcome : CaptureOutcome) (n : Nat)
    (hh : c.thread_handle = some ())
    (hcap : s.is_capture_mode = true)
    (harea : s.is_area_select_mode = false)
    (_hen : s.auto_clicker.enabled = true)
    (hth : s.auto_clicker.thread_handle = some ()) :
    c.is_running = true
  ∧ c.start pos2 = Except.error "連続クリックは既に開始されています"
  ∧ (worker_store_progress s n).auto_clicker.thread_handle = s.auto_clicker.thread_handle
  ∧ (low_level_mouse_proc s MouseEvent.lbuttonup pos outcome).2.2 = [MouseAction.syncCapture]
  ∧ (low_level_mouse_proc s MouseEvent.lbuttonup pos outcome).2.1 = false := by
  have hrun : c.is_running = true := by simp [AutoClicker.is_running, hh]
  have hrun2 : s.auto_clicker.is_running = true := by simp [AutoClicker.is_running, hth]
  have hstart : c.start pos2 = Except.error "連続クリックは既に開始されています" := by
    simp [AutoClicker.start, hh]
  refine ⟨hrun, hstart, rfl, ?_, ?_⟩
  · simp [low_level_mouse_proc, harea, hcap, AutoClicker.is_enabled, hrun2]
  · simp [low_level_mouse_proc, harea, hcap, AutoClicker.is_enabled, hrun2,
      area_select_click_guard]
    rw [(capture_preserves_flags outcome _).1]

/-- C10 witness: concrete clicker with a stored handle and concrete
capture-mode state. -/
theorem stale_worker_handle_witness :
    ({ AutoClicker.new with thread_handle := some (), enabled := true } :
        AutoClicker).is_running = true
  ∧ (low_level_mouse_proc
        { AppState.default with
            is_capture_mode := true
            auto_clicker :=
              { AutoClicker.new with thread_handle := some (), enabled := true } }
        MouseEvent.lbuttonup ⟨7, 7⟩ CaptureOutcome.saveFail).2.2
      = [MouseAction.syncCapture] := by
  have h := stale_worker_handle
    { AutoClicker.new with thread_handle := some (), enabled := true }
    { AppState.default with
        is_capture_mode := true
        auto_clicker :=
          { AutoClicker.new with thread_handle := some (), enabled := true } }
    ⟨7, 7⟩ ⟨0, 0⟩ CaptureOutcome.saveFail 0 rfl rfl rfl rfl rfl
  exact ⟨h.1, h.2.2.2.1⟩

/-! Lemmas about the auto-click worker loop. -/

theorem auto_click_loop_iter_false_step (max_count n progress : Nat) :
    auto_click_loop_iter (fun _ => false) (fun _ => false) (fun _ => false)
        max_count (n + 1) progress
      = if MAX_CAPTURE_COUNT ≤ progress || max_count ≤ progress then
          (progress, decide (MAX_CAPTURE_COUNT ≤ progress))
        else
          auto_click_loop_iter (fun _ => false) (fun _ => false) (fun _ => false)
            max_count n (progress + 1) := rfl

theorem auto_click_loop_iter_no_stop (max_count : Nat) :
    ∀ (fuel progress : Nat),
      progress ≤ min max_count MAX_CAPTURE_COUNT →
      min max_count MAX_CAPTURE_COUNT - progress < fuel →
      auto_click_loop_iter (fun _ => false) (fun _ => false) (fun _ => false)
          max_count fuel progress
        = (min max_count MAX_CAPTURE_COUNT, decide (MAX_CAPTURE_COUNT ≤ max_count)) := by
  intro fuel
  induction fuel with
  | zero =>
      intro progress h1 h2
      omega
  | succ n ih =>
      intro progress h1 h2
      rw [auto_click_loop_iter_false_step]
      by_cases hc : MAX_CAPTURE_COUNT ≤ progress ∨ max_count ≤ progress
      · have hp : progress = min max_count MAX_CAPTURE_COUNT := by omega
        have hcond : (decide (MAX_CAPTURE_COUNT ≤ progress)
            || decide (max_count ≤ progress)) = true := by
          simp only [Bool.or_eq_true, decide_eq_true_eq]
          exact hc
        rw [if_pos hcond]
        refine Prod.ext hp ?_
        simp only [decide_eq_decide]
        subst hp
        simp only [MAX_CAPTURE_COUNT]
        omega
      · have hcond : (decide (MAX_CAPTURE_COUNT ≤ progress)
            || decide (max_count ≤ progress)) = false := by
          simp only [Bool.or_eq_false_iff, decide_eq_false_iff_not]
          omega
        rw [hcond, if_neg (by simp)]
        exact ih (progress + 1) (by omega) (by omega)

theorem auto_click_loop_iter_stop_le (g q e : Nat → Bool) (max_count p : Nat)
    (hp : g p = true ∨ q p = true) :
    ∀ (fuel progress : Nat), progress ≤ p →
      (auto_click_loop_iter g q e max_count fuel progress).1 ≤ p := by
  intro fuel
  induction fuel with
  | zero =>
      intro progress h
      simpa [auto_click_loop_iter] using h
  | succ n ih =>
      intro progress h
      rw [auto_click_loop_iter]
      split_ifs with h1 h2 h3 h4
      · simpa using h
      · simpa using h
      · simpa using h
      · have hne : progress ≠ p := by
          intro hpp
          subst hpp
          rcases hp with hg | hq
          · exact h1 hg
          · exact h2 hq
        simp only []
        omega
      · exact ih (progress + 1) (by
          rcases Nat.lt_or_ge progress p with hlt | hge
          · omega
          · exfalso
            have hpp : progress = p := by omega
            subst hpp
            rcases hp with hg | hq
            · exact h1 hg
            · exact h2 hq)

/-- C2: with the stop flag never observed set and no injection error, a
worker started with target `N` (1 ≤ N ≤ 999) performs exactly `N` clicks
and posts exactly one completion message; and whenever the stop flag is
observed set at the guard or post-sleep check of the iteration whose
click count so far is `p`, no click beyond the first `p` is performed and
exactly one completion message is still posted. -/
theorem auto_click_termination (N : Nat) (h1 : 1 ≤ N) (h2 : N ≤ 999) :
    ((auto_click_loop (fun _ => false) (fun _ => false) (fun _ => false) N).clicks = N
      ∧ (auto_click_loop (fun _ => false) (fun _ => false) (fun _ => false)
          N).completion_posts = 1)
  ∧ (∀ (g q e : Nat → Bool) (p : Nat), g p = true ∨ q p = true →
      (auto_click_loop g q e N).clicks ≤ p
        ∧ (auto_click_loop g q e N).completion_posts = 1) := by
  have hmin : min N MAX_CAPTURE_COUNT = N := by
    simp only [MAX_CAPTURE_COUNT]
    omega
  constructor
  · constructor
    · have hrun := auto_click_loop_iter_no_stop N (MAX_CAPTURE_COUNT + 1) 0
        (by omega) (by simp only [MAX_CAPTURE_COUNT]; omega)
      simp [auto_click_loop, hrun, hmin]
    · rfl
  · intro g q e p hp
    exact ⟨auto_click_loop_iter_stop_le g q e N p hp (MAX_CAPTURE_COUNT + 1) 0
        (Nat.zero_le p), rfl⟩

/-- C2 witness: target 3, no cancellation gives exactly 3 clicks; the
stop flag observed set at the very first check gives 0 clicks; one
completion post each. -/
theorem auto_click_termination_witness :
    (auto_click_loop (fun _ => false) (fun _ => false) (fun _ => false) 3).clicks = 3
  ∧ (auto_click_loop (fun _ => false) (fun _ => false) (fun _ => false) 3).completion_posts
      = 1
  ∧ (auto_click_loop (fun _ => true) (fun _ => false) (fun _ => false) 3).clicks ≤ 0
  ∧ (auto_click_loop (fun _ => true) (fun _ => false) (fun _ => false)
      3).completion_posts = 1 :=
  ⟨(auto_click_termination 3 (by decide) (by decide)).1.1,
   (auto_click_termination 3 (by decide) (by decide)).1.2,
   ((auto_click_termination 3 (by decide) (by decide)).2
      (fun _ => true) (fun _ => false) (fun _ => false) 0 (Or.inl rfl)).1,
   ((auto_click_termination 3 (by decide) (by decide)).2
      (fun _ => true) (fun _ => false) (fun _ => false) 0 (Or.inl rfl)).2⟩

/-- C8 counterexample: for a user-configured target of exactly 999, with
no cancellation and no injection error, the worker performs 999 clicks
and the ceiling warning box IS shown, refuting the claim that the warning
is shown only when the ceiling rather than the target stopped the loop. -/
theorem auto_click_ceiling_counterexample :
    (auto_click_loop (fun _ => false) (fun _ => false) (fun _ => false) 999).clicks = 999
  ∧ (auto_click_loop (fun _ => false) (fun _ => false) (fun _ => false)
      999).ceiling_warned = true := by
  have hrun := auto_click_loop_iter_no_stop 999 (MAX_CAPTURE_COUNT + 1) 0
    (by omega) (by simp only [MAX_CAPTURE_COUNT]; omega)
  simp only [MAX_CAPTURE_COUNT] at hrun
  simp [auto_click_loop, MAX_CAPTURE_COUNT, hrun]

/-- C8 amended: with no cancellation and no injection error the loop
performs `min N 999` clicks and shows the one-time ceiling warning
exactly when the count check fires with progress at the ceiling, i.e.
exactly when the target `N` is at least 999 — including the case
`N = 999`, where the target and the ceiling coincide and the warning is
shown. -/
theorem auto_click_ceiling_behavior (N : Nat) :
    (auto_click_loop (fun _ => false) (fun _ => false) (fun _ => false) N).clicks
        = min N MAX_CAPTURE_COUNT
  ∧ (auto_click_loop (fun _ => false) (fun _ => false) (fun _ => false) N).ceiling_warned
        = decide (MAX_CAPTURE_COUNT ≤ N) := by
  have hrun := auto_click_loop_iter_no_stop N (MAX_CAPTURE_COUNT + 1) 0
    (by omega) (by simp only [MAX_CAPTURE_COUNT]; omega)
  simp [auto_click_loop, hrun]

/-! Lemmas about the sequential file naming. -/

theorem ofDigits_replicate_zero (b k : Nat) :
    Nat.ofDigits b (List.replicate k 0) = 0 := by
  induction k with
  | zero => simp [Nat.ofDigits_nil]
  | succ n ih => simp [List.replicate_succ, Nat.ofDigits_cons, ih]

theorem file_digits_left_inverse (n : Nat) :
    Nat.ofDigits 10 (file_digits n).reverse = n := by
  unfold file_digits
  simp [List.reverse_append, List.reverse_replicate, Nat.ofDigits_append,
    ofDigits_replicate_zero, Nat.ofDigits_digits]

theorem file_digits_injective : Function.Injective file_digits := by
  intro a b h
  have ha := file_digits_left_inverse a
  have hb := file_digits_left_inverse b
  rw [h] at ha
  omega

theorem run_captures_spec (outs : List CaptureOutcome) :
    ∀ (s : AppState), s.selected_area.isSome = true →
      ((run_captures s outs).1.capture_file_counter
          = s.capture_file_counter + outs.count CaptureOutcome.saveOk)
    ∧ ((run_captures s outs).2
          = (List.range (outs.count CaptureOutcome.saveOk)).map
              (fun i => file_digits (s.capture_file_counter + i)))
    ∧ ((run_captures s outs).1.selected_area = s.selected_area) := by
  induction outs with
  | nil =>
      intro s _
      simp [run_captures]
  | cons o os ih =>
      intro s hs
      obtain ⟨r, hr⟩ := Option.isSome_iff_exists.mp hs
      cases o
      · have h := ih { s with capture_overlay_is_processing := false } (by simp [hr])
        rw [hr] at h
        simp only [run_captures, capture_screen_area_with_counter, hr]
        simpa [List.count_cons] using h
      · have h := ih { s with capture_overlay_is_processing := false } (by simp [hr])
        rw [hr] at h
        simp only [run_captures, capture_screen_area_with_counter, hr]
        simpa [List.count_cons] using h
      · have h := ih
          { s with
              capture_file_counter := s.capture_file_counter + 1
              capture_overlay_is_processing := false } (by simp [hr])
        rw [hr] at h
        simp only [run_captures, capture_screen_area_with_counter, hr]
        refine ⟨?_, ?_, ?_⟩
        · have h1 := h.1
          simp at h1 ⊢
          omega
        · have h2 := h.2.1
          simp only at h2 ⊢
          rw [h2]
          simp [List.count_cons, List.range_succ_eq_map, List.map_map, Function.comp]
          intro i _
          congr 1
          omega
        · exact h.2.2

/-- C3: starting from the initialized state (counter 1) with a stored
selection, any interleaving of successful and failed capture attempts
leaves the counter at K+1 where K is the number of verified-successful
saves; the saved files are named by the zero-padded counter values
1, 2, ..., K at their save times, and no filename is ever reused. -/
theorem file_counter_monotonicity (r : Rect) (outs : List CaptureOutcome) :
    AppState.default.capture_file_counter = 1
  ∧ (run_captures { AppState.default with selected_area := some r }
        outs).1.capture_file_counter
      = outs.count CaptureOutcome.saveOk + 1
  ∧ (run_captures { AppState.default with selected_area := some r } outs).2
      = (List.range (outs.count CaptureOutcome.saveOk)).map (fun i => file_digits (1 + i))
  ∧ ((run_captures { AppState.default with selected_area := some r } outs).2).Nodup := by
  have h := run_captures_spec outs { AppState.default with selected_area := some r }
    (by simp)
  simp only at h
  have hinj : Function.Injective fun i => file_digits (1 + i) := by
    intro a b hab
    have := file_digits_injective hab
    omega
  refine ⟨rfl, ?_, h.2.1, ?_⟩
  · rw [h.1]
    have : AppState.default.capture_file_counter = 1 := rfl
    omega
  · rw [h.2.1]
    exact List.Nodup.map hinj (List.nodup_range _)

/-! Preservation of the mode invariant by every deliverable event. -/

theorem mode_ok_start_area (cursor_ok : Bool) (pos : Point) (s : AppState)
    (h : mode_flags_ok s = true)
    (hen : (update_input_control_states s).area_select_enable = true) :
    mode_flags_ok ((start_area_select_mode cursor_ok pos s).1) = true := by
  unfold start_area_select_mode
  split_ifs with h1 h2
  · simpa using h
  · unfold update_input_control_states at hen
    unfold mode_flags_ok at h ⊢
    simp only [install_hooks]
    cases hc : s.is_capture_mode <;> cases he : s.is_exporting_to_pdf <;> simp_all
  · simpa using h

theorem mode_ok_toggle (s : AppState) (h : mode_flags_ok s = true)
    (hpre : s.is_capture_mode = true ∨
      (s.is_area_select_mode = false ∧ s.is_exporting_to_pdf = false)) :
    mode_flags_ok ((toggle_capture_mode s).1) = true := by
  unfold toggle_capture_mode
  split_ifs with h1 h2 h3
  · have hd : s.is_dragging = false := by
      unfold mode_flags_ok at h
      cases hdrag : s.is_dragging
      · rfl
      · exfalso
        cases harea : s.is_area_select_mode <;> simp_all
    unfold mode_flags_ok at h ⊢
    simp only [uninstall_hooks, AutoClicker.stop]
    split_ifs <;> simp_all
  · simpa using h
  · simpa using h
  · rcases hpre with hc | ⟨ha, he⟩
    · exact absurd hc h1
    · unfold mode_flags_ok at h ⊢
      simp only [install_hooks]
      simp_all

theorem mode_ok_cancel (s : AppState) (h : mode_flags_ok s = true) :
    mode_flags_ok (cancel_area_select_mode s) = true := by
  unfold mode_flags_ok at h ⊢
  simp only [cancel_area_select_mode, uninstall_hooks]
  simp_all

theorem mode_ok_pdf_start (s : AppState) (h : mode_flags_ok s = true)
    (hen : (update_input_control_states s).export_pdf_enable = true) :
    mode_flags_ok (handle_pdf_export_start s) = true := by
  unfold update_input_control_states at hen
  unfold mode_flags_ok at h ⊢
  simp only [handle_pdf_export_start]
  cases ha : s.is_area_select_mode <;> cases hc : s.is_capture_mode <;> simp_all

theorem mode_ok_pdf_finish (s : AppState) (h : mode_flags_ok s = true) :
    mode_flags_ok (handle_pdf_export_finish s) = true := by
  unfold mode_flags_ok at h ⊢
  simp only [handle_pdf_export_finish]
  simp_all

theorem mode_ok_close (s : AppState) (h : mode_flags_ok s = true) :
    mode_flags_ok (cleanup_and_exit_dialog s) = true := by
  unfold cleanup_and_exit_dialog
  split_ifs with h1 h2
  · exact mode_ok_toggle s h (Or.inl h1)
  · exact mode_ok_cancel s h
  · exact h

theorem mode_ok_complete (s : AppState) (h : mode_flags_ok s = true) :
    mode_flags_ok (handle_auto_click_complete s) = true := by
  unfold handle_auto_click_complete
  split_ifs with h1
  · exact mode_ok_toggle s h (Or.inl h1)
  · exact h

theorem mode_ok_key (s : AppState) (vk_code : Nat) (key_down : Bool)
    (h : mode_flags_ok s = true) :
    mode_flags_ok ((low_level_keyboard_proc s vk_code key_down).1) = true := by
  by_cases hk : key_down = true
  · by_cases h1 : (vk_code == 27 && s.is_capture_mode) = true
    · have hcap : s.is_capture_mode = true := by
        simpa using (Bool.and_eq_true _ _ |>.mp h1).2
      have ht := mode_ok_toggle s h (Or.inl hcap)
      by_cases h2 : (vk_code == 27 && (toggle_capture_mode s).1.is_area_select_mode) = true
      · have hc := mode_ok_cancel _ ht
        simpa [low_level_keyboard_proc, hk, h1, h2] using hc
      · simpa [low_level_keyboard_proc, hk, h1, h2] using ht
    · by_cases h2 : (vk_code == 27 && s.is_area_select_mode) = true
      · have hc := mode_ok_cancel s h
        simpa [low_level_keyboard_proc, hk, h1, h2] using hc
      · simpa [low_level_keyboard_proc, hk, h1, h2] using h
  · simpa [low_level_keyboard_proc, hk] using h

theorem mode_ok_mouse (s : AppState) (ev : MouseEvent) (pos : Point)
    (outcome : CaptureOutcome) (h : mode_flags_ok s = true) :
    mode_flags_ok ((low_level_mouse_proc s ev pos outcome).1) = true := by
  cases ev
  · simp only [low_level_mouse_proc]
    split_ifs <;> simpa [mode_flags_ok] using (by simpa [mode_flags_ok] using h)
  · simp only [low_level_mouse_proc]
    split_ifs with h1
    · unfold mode_flags_ok at h ⊢
      simp only at h1
      simp_all
    · simpa [mode_flags_ok] using h
  · simp only [low_level_mouse_proc]
    split_ifs with h1 h2 h3
    · exact mode_ok_cancel _ (by simpa [mode_flags_ok] using h)
    · simpa [mode_flags_ok] using h
    · have hp := capture_preserves_flags outcome { s with current_mouse_pos := pos }
      unfold mode_flags_ok
      rw [hp.1, hp.2.1, hp.2.2.1, hp.2.2.2.1]
      simpa [mode_flags_ok] using h
    · simpa [mode_flags_ok] using h

theorem capture_enable_cases (s : AppState)
    (hen : (update_input_control_states s).capture_enable = true) :
    s.is_capture_mode = true ∨
      (s.is_area_select_mode = false ∧ s.is_exporting_to_pdf = false) := by
  unfold update_input_control_states at hen
  cases ha : s.is_area_select_mode <;> cases hc : s.is_capture_mode <;>
    cases he : s.is_exporting_to_pdf <;> simp_all

/-- C1: in every state reachable from the initialized state by
deliverable UI commands and hook events, at most one of the three mode
flags is set, and dragging only happens in area-select mode. -/
theorem mode_exclusion_invariant (s : AppState) (h : Reachable s) :
    (¬(s.is_area_select_mode = true ∧ s.is_capture_mode = true))
  ∧ (¬(s.is_area_select_mode = true ∧ s.is_exporting_to_pdf = true))
  ∧ (¬(s.is_capture_mode = true ∧ s.is_exporting_to_pdf = true))
  ∧ (s.is_dragging = true → s.is_area_select_mode = true) := by
  have key : mode_flags_ok s = true := by
    induction h with
    | init => rfl
    | step c hs hen ih =>
        cases c with
        | reqAreaSelect ok pos => exact mode_ok_start_area ok pos _ ih hen
        | reqCapture => exact mode_ok_toggle _ ih (capture_enable_cases _ hen)
        | reqPdfExportStart => exact mode_ok_pdf_start _ ih hen
        | reqPdfExportFinish => exact mode_ok_pdf_finish _ ih
        | reqClose => exact mode_ok_close _ ih
        | mouse ev pos outcome => exact mode_ok_mouse _ ev pos outcome ih
        | key vk down => exact mode_ok_key _ vk down ih
        | autoClickComplete => exact mode_ok_complete _ ih
  unfold mode_flags_ok at key
  simp only [Bool.and_eq_true, Bool.not_eq_true', Bool.and_eq_false_iff,
    Bool.or_eq_true, Bool.not_eq_true] at key
  constructor
  · rintro ⟨ha, hc⟩
    rcases key.1.1.1 with hx | hx <;> simp_all
  constructor
  · rintro ⟨ha, he⟩
    rcases key.1.1.2 with hx | hx <;> simp_all
  constructor
  · rintro ⟨hc, he⟩
    rcases key.1.2 with hx | hx <;> simp_all
  · intro hd
    rcases key.2 with hx | hx <;> simp_all

/-- C1 witness: the invariant applied at the reachable initial state. -/
theorem mode_exclusion_invariant_witness :
    Reachable AppState.default
  ∧ (AppState.default.is_dragging = true → AppState.default.is_area_select_mode = true) :=
  ⟨Reachable.init, (mode_exclusion_invariant AppState.default Reachable.init).2.2.2⟩

end ClickCapture
